import Mathlib

/-!
Shallow embedding of `processTestInfra` from
`kinder/ci/tools/update-workflows/pkg/testinfra.go` and proofs about it.

Go strings are modelled as lists of characters. External effects
(reading the template file, parsing templates with the text/template
library, YAML validation, writing the output file) are abstracted into an
`Env` record of functions; the observable effects of a run (files read,
files written, template executions performed) are tracked explicitly in
the result so that properties about them can be stated.
-/

set_option autoImplicit false

/-- Character-list model of a Go string. -/
abbrev Str := List Char

/-- Embed a Lean string literal as a character list. -/
def str (s : String) : Str := s.data

/-- Model of Go strings.TrimSuffix: returns s without the provided
trailing suffix; if s does not end in the suffix, s is returned unchanged. -/
def trimSuffix (s suffix : Str) : Str :=
  if suffix.isSuffixOf s then s.take (s.length - suffix.length) else s

/-- Decimal rendering of a natural number, modelling the %d verb of
fmt.Sprintf for the (non-negative) ints used in testinfra.go. -/
def natToStr (n : Nat) : Str := (toString n).data

/-- Model of Go path.IsAbs: a path is absolute when it starts with a slash. -/
def pathIsAbs (p : Str) : Bool := p.head? = some '/'

/-- Model of Go filepath.Join for two components (without the Clean
normalization, which no property here depends on). -/
def filepathJoin (a b : Str) : Str :=
  if a.isEmpty then b else if b.isEmpty then a else a ++ str "/" ++ b

/-- Model of Go filepath.Dir: everything before the final slash; a path
with no slash has directory "."; the root stays "/". -/
def filepathDir (p : Str) : Str :=
  let pre := (p.reverse.dropWhile (fun c => c ≠ '/')).reverse
  if pre.isEmpty then str "."
  else if pre = str "/" then str "/"
  else pre.dropLast

/-- Model of Go path.Base: the last element of the path, after dropping
trailing slashes; the empty path gives "." and an all-slash path gives "/". -/
def pathBase (p : Str) : Str :=
  if p.isEmpty then str "."
  else
    let r := p.reverse.dropWhile (fun c => c = '/')
    if r.isEmpty then str "/" else (r.takeWhile (fun c => c ≠ '/')).reverse

/-- Modelled from the spec: the sentinel version value meaning track the
latest moving release. The constant latestVersion is defined elsewhere in
the repository (not under src); only comparisons against it matter here. -/
def latestVersion : Str := str "latest"

/-- Modelled from the spec: the fixed autogenerated-file header comment
block (constant autogeneratedHeader, defined elsewhere in the repository,
not under src), marking output files as machine generated. -/
def autogeneratedHeader : Str :=
  str "# AUTOGENERATED by kinder ci tools update-workflows; do not edit."

/-- Modelled from the spec: a pinned version as a list of numeric
components, compared in standard semantic-version order. The parsed
version type comes from a library outside this repository. -/
abbrev Version := List Nat

/-- Strict component-wise version order on numeric component lists. -/
def versionLT : Version → Version → Bool
  | _, [] => false
  | [], _ :: _ => true
  | a :: as, b :: bs => if a < b then true else if b < a then false else versionLT as bs

/-- Parse a run of decimal digits; empty or non-digit input fails. -/
def parseNat (s : Str) : Option Nat :=
  if s.isEmpty ∨ ¬ (s.all Char.isDigit) then none
  else some (s.foldl (fun n c => n * 10 + (c.toNat - 48)) 0)

/-- Split a character list at every dot. -/
def splitDots : Str → List Str
  | [] => [[]]
  | c :: rest =>
    let r := splitDots rest
    if c = '.' then [] :: r
    else
      match r with
      | [] => [[c]]
      | h :: t => (c :: h) :: t

/-- Parse a dotted version string such as "1.28" or "v1.28.1" into its
numeric components. -/
def parseVersion (s : Str) : Option Version :=
  let s := if s.head? = some 'v' then s.drop 1 else s
  let parts := (splitDots s).map parseNat
  if parts.all Option.isSome then some (parts.map (fun o => o.getD 0)) else none

/-- Modelled from the spec: skipVersion is defined elsewhere in the
repository (not under src). Per the spec, a job entry is skipped when its
target version is older than the oldest tracked version or falls below the
minimum version boundary; the latest sentinel is treated as greater than
every pinned version and is never skipped, and an unparseable version is
skipped. -/
def skipVersion (oldestVer minVer : Version) (jobVersion : Str) : Bool :=
  if jobVersion = latestVersion then false
  else
    match parseVersion jobVersion with
    | none => true
    | some v => versionLT v oldestVer || versionLT v minVer

/-- One job entry of a job group; the field set is the one read by
processTestInfra (the defining Go struct lives outside src). -/
structure jobEntry where
  KubernetesVersion : Str
  KubeadmVersion : Str
  KubeletVersion : Str
  InitVersion : Str
  UpgradeVersion : Str
deriving DecidableEq

/-- A template reference together with a target file, as read from a job
group by processTestInfra (the defining Go struct lives outside src). -/
structure workflowSpec where
  Template : Str
  TargetFile : Str
deriving DecidableEq

/-- A job group configuration as read by processTestInfra (the defining
Go struct lives outside src; the fields are the ones the function uses). -/
structure jobGroup where
  Name : Str
  TestInfraJobSpec : workflowSpec
  KinderWorkflowSpec : workflowSpec
  Jobs : List jobEntry
deriving DecidableEq

/-- Externally supplied settings as read by processTestInfra (the
defining Go struct lives outside src; the fields are the ones used). -/
structure Settings where
  PathConfig : Str
  PathTestInfra : Str
  ImageTestInfra : Str
deriving DecidableEq

/-- The template variable record built per job entry (struct templateVars,
defined outside src; the fields are exactly the ones assigned in
processTestInfra). Fields not yet assigned hold the empty string, the Go
zero value. -/
structure templateVars where
  KubernetesVersion : Str
  KubeadmVersion : Str
  KubeletVersion : Str
  InitVersion : Str
  UpgradeVersion : Str
  TargetFile : Str
  TestInfraImage : Str
  WorkflowFile : Str := []
  JobInterval : Str := []
  AlertAnnotations : Str := []
deriving DecidableEq

/-- One parsed node of a text template: literal text or a reference to a
field of templateVars. The text/template library is external; its parsed
form is modelled as a list of these nodes and parsing itself stays
abstract in Env. -/
inductive TItem where
  | lit (s : Str)
  | var (name : Str)
deriving DecidableEq

/-- A parsed template is a list of template nodes. -/
abbrev Template := List TItem

/-- An error value; only its message text is observable. -/
structure Error where
  msg : Str
deriving DecidableEq

/-- Field lookup for template rendering, mirroring how text/template
resolves a field reference on the templateVars record. -/
def lookupVar (v : templateVars) (name : Str) : Option Str :=
  if name = str "KubernetesVersion" then some v.KubernetesVersion
  else if name = str "KubeadmVersion" then some v.KubeadmVersion
  else if name = str "KubeletVersion" then some v.KubeletVersion
  else if name = str "InitVersion" then some v.InitVersion
  else if name = str "UpgradeVersion" then some v.UpgradeVersion
  else if name = str "TargetFile" then some v.TargetFile
  else if name = str "TestInfraImage" then some v.TestInfraImage
  else if name = str "WorkflowFile" then some v.WorkflowFile
  else if name = str "JobInterval" then some v.JobInterval
  else if name = str "AlertAnnotations" then some v.AlertAnnotations
  else none

/-- Template execution, modelling Execute of text/template: literals are
copied, field references are substituted, and an unresolvable reference
fails with an error. -/
def executeTemplate (t : Template) (v : templateVars) : Except Error Str :=
  match t with
  | [] => .ok []
  | .lit s :: rest => (executeTemplate rest v).map (fun r => s ++ r)
  | .var n :: rest =>
    match lookupVar v n with
    | none => .error ⟨str "undefined variable: " ++ n⟩
    | some val => (executeTemplate rest v).map (fun r => val ++ r)

/-- Lines 80 to 89 of testinfra.go: the templateVars record as first
built for a job entry, before WorkflowFile, JobInterval and
AlertAnnotations are assigned. -/
def initJobVars (settings : Settings) (cfg : jobGroup) (j : jobEntry) : templateVars :=
  { KubernetesVersion := j.KubernetesVersion
    KubeadmVersion := j.KubeadmVersion
    KubeletVersion := j.KubeletVersion
    InitVersion := j.InitVersion
    UpgradeVersion := j.UpgradeVersion
    TargetFile := cfg.TestInfraJobSpec.TargetFile
    TestInfraImage := settings.ImageTestInfra }

/-- Line 96 of testinfra.go: the WorkflowFile value computed from the
rendered file name: strip one trailing ".yaml" and wrap in double quotes. -/
def workflowFileOf (fileName : Str) : Str :=
  str "\"" ++ trimSuffix fileName (str ".yaml") ++ str "\""

/-- Lines 99 to 109 of testinfra.go: the job interval and the two alert
thresholds selected by whether the entry tracks the latest sentinel. -/
def jobAlertPolicy (j : jobEntry) : Str × Nat × Nat :=
  if j.KubernetesVersion = latestVersion ∨ j.KubeadmVersion = latestVersion then
    (str "2h", 8, 16)
  else
    (str "12h", 4, 48)

/-- Lines 80 to 111 of testinfra.go: the fully resolved templateVars
record for one job entry, given the rendered file name. -/
def resolveJobVars (settings : Settings) (cfg : jobGroup) (j : jobEntry)
    (fileName : Str) : templateVars :=
  let vars := initJobVars settings cfg j
  let vars := { vars with WorkflowFile := workflowFileOf fileName }
  let policy := jobAlertPolicy j
  { vars with
    JobInterval := policy.1
    AlertAnnotations :=
      str "    testgrid-num-failures-to-alert: \"" ++ natToStr policy.2.1
        ++ str "\"\n    testgrid-alert-stale-results-hours: \"" ++ natToStr policy.2.2
        ++ str "\"" }

/-- Line 74 of testinfra.go: the skip decision for one entry; skipVersion
is called with only the KubernetesVersion field of the entry. -/
def skipDecision (oldestVer minVer : Version) (j : jobEntry) : Bool :=
  skipVersion oldestVer minVer j.KubernetesVersion

/-- Lines 71 to 119 of testinfra.go: the per-entry loop. Returns the
outcome (the accumulated text, or the first error) paired with the number
of template executions performed. The accumulator starts from the header
text and the execution count from zero. -/
def processJobs (templateJob templateFileName : Template) (settings : Settings)
    (cfg : jobGroup) (oldestVer minVer : Version) :
    List jobEntry → Str → Nat → Except Error Str × Nat
  | [], acc, n => (.ok acc, n)
  | j :: rest, acc, n =>
    if skipDecision oldestVer minVer j then
      processJobs templateJob templateFileName settings cfg oldestVer minVer rest acc n
    else
      match executeTemplate templateFileName (initJobVars settings cfg j) with
      | .error e => (.error e, n + 1)
      | .ok fileName =>
        match executeTemplate templateJob (resolveJobVars settings cfg j fileName) with
        | .error e => (.error e, n + 2)
        | .ok rendered =>
          processJobs templateJob templateFileName settings cfg oldestVer minVer rest
            (acc ++ str "\n" ++ rendered) (n + 2)

/-- The external operations processTestInfra relies on: reading a file,
parsing a template (text/template), validating YAML (a parse that either
succeeds or returns an error), and writing a file (returning an error on
failure). -/
structure Env where
  readFile : Str → Except Error Str
  parseTemplate : Str → Except Error Template
  yamlValidate : Str → Option Error
  writeFile : Str → Str → Option Error

/-- Decidable equality for Except values with decidable components. -/
instance {ε α : Type} [DecidableEq ε] [DecidableEq α] : DecidableEq (Except ε α) := fun
  | .ok a, .ok b =>
    if h : a = b then isTrue (by rw [h]) else isFalse (by simp [h])
  | .ok _, .error _ => isFalse (by simp)
  | .error _, .ok _ => isFalse (by simp)
  | .error e, .error f =>
    if h : e = f then isTrue (by rw [h]) else isFalse (by simp [h])

/-- The observable outcome of a run of processTestInfra: the returned
value, the successful file writes (path and content), the files read, and
the number of template executions performed. -/
structure ProcOutput where
  result : Except Error Unit
  writes : List (Str × Str)
  reads : List Str
  execCount : Nat
deriving DecidableEq

/-- Lines 44 to 47 of testinfra.go: the resolved template path; a
relative template path is joined to the directory of the config file. -/
def tPathOf (settings : Settings) (cfg : jobGroup) : Str :=
  if pathIsAbs cfg.TestInfraJobSpec.Template then cfg.TestInfraJobSpec.Template
  else filepathJoin (filepathDir settings.PathConfig) cfg.TestInfraJobSpec.Template

/-- Line 127 of testinfra.go: the output path is the test-infra directory
joined with the base name of the target file. -/
def outPathOf (settings : Settings) (cfg : jobGroup) : Str :=
  filepathJoin settings.PathTestInfra (pathBase cfg.TestInfraJobSpec.TargetFile)

/-- Line 69 of testinfra.go: the initial accumulated text, the
autogenerated header followed by the periodics root key. -/
def baseContent : Str := autogeneratedHeader ++ str "\nperiodics:\n"

/-- Lines 34 to 133 of testinfra.go: the whole pipeline. An empty
template reference returns success immediately; otherwise the template
file is read and parsed, the file-name template is parsed, the per-entry
loop accumulates the rendered text, the accumulated text is validated as
YAML (a validation error wraps the error message around the full text,
modelling errors.Wrapf with format "\n%s\n"), and only then is the output
file written. -/
def processTestInfra (env : Env) (settings : Settings) (cfg : jobGroup)
    (oldestVer minVer : Version) : ProcOutput :=
  if cfg.TestInfraJobSpec.Template.length = 0 then
    { result := .ok (), writes := [], reads := [], execCount := 0 }
  else
    match env.readFile (tPathOf settings cfg) with
    | .error e =>
      { result := .error e, writes := [], reads := [tPathOf settings cfg], execCount := 0 }
    | .ok tBytes =>
      match env.parseTemplate tBytes with
      | .error e =>
        { result := .error e, writes := [], reads := [tPathOf settings cfg], execCount := 0 }
      | .ok templateJob =>
        match env.parseTemplate cfg.KinderWorkflowSpec.TargetFile with
        | .error e =>
          { result := .error e, writes := [], reads := [tPathOf settings cfg], execCount := 0 }
        | .ok templateFileName =>
          match processJobs templateJob templateFileName settings cfg oldestVer minVer
              cfg.Jobs baseContent 0 with
          | (.error e, n) =>
            { result := .error e, writes := [], reads := [tPathOf settings cfg], execCount := n }
          | (.ok content, n) =>
            match env.yamlValidate content with
            | some e =>
              { result := .error ⟨str "\n" ++ content ++ str "\n: " ++ e.msg⟩,
                writes := [], reads := [tPathOf settings cfg], execCount := n }
            | none =>
              match env.writeFile (outPathOf settings cfg) content with
              | some e =>
                { result := .error e, writes := [], reads := [tPathOf settings cfg],
                  execCount := n }
              | none =>
                { result := .ok (), writes := [(outPathOf settings cfg, content)],
                  reads := [tPathOf settings cfg], execCount := n }

/-! Sample inputs used by witnesses and counterexamples. -/

/-- Sample settings with concrete paths and image. -/
def sampleSettings : Settings :=
  { PathConfig := str "/cfg/workflows.yaml"
    PathTestInfra := str "/out/testinfra"
    ImageTestInfra := str "img:v1" }

/-- Sample entry tracking the latest sentinel. -/
def sampleLatestJob : jobEntry :=
  { KubernetesVersion := latestVersion
    KubeadmVersion := latestVersion
    KubeletVersion := latestVersion
    InitVersion := []
    UpgradeVersion := [] }

/-- Sample entry pinned to version 1.28. -/
def samplePinnedJob : jobEntry :=
  { KubernetesVersion := str "1.28"
    KubeadmVersion := str "1.28"
    KubeletVersion := str "1.28"
    InitVersion := []
    UpgradeVersion := [] }

/-- Sample entry pinned to the old version 1.10, below the tracked range. -/
def sampleOldJob : jobEntry :=
  { KubernetesVersion := str "1.10"
    KubeadmVersion := str "1.10"
    KubeletVersion := str "1.10"
    InitVersion := []
    UpgradeVersion := [] }

/-- Sample job group with a non-empty template reference and no jobs. -/
def sampleGroup : jobGroup :=
  { Name := str "g"
    TestInfraJobSpec := { Template := str "tpl.yaml", TargetFile := str "out.yaml" }
    KinderWorkflowSpec := { Template := [], TargetFile := str "wf-file.yaml" }
    Jobs := [] }

/-- Sample job group whose template reference is empty. -/
def sampleEmptyGroup : jobGroup :=
  { Name := str "g2"
    TestInfraJobSpec := { Template := [], TargetFile := str "out.yaml" }
    KinderWorkflowSpec := { Template := [], TargetFile := str "wf-file.yaml" }
    Jobs := [samplePinnedJob] }

/-- Environment whose template file read fails. -/
def errEnv : Env :=
  { readFile := fun _ => .error ⟨str "boom"⟩
    parseTemplate := fun _ => .ok []
    yamlValidate := fun _ => none
    writeFile := fun _ _ => none }

/-- Environment where every external operation succeeds. -/
def goodEnv : Env :=
  { readFile := fun _ => .ok []
    parseTemplate := fun _ => .ok []
    yamlValidate := fun _ => none
    writeFile := fun _ _ => none }

/-- Environment whose YAML validation always fails. -/
def valEnv : Env :=
  { readFile := fun _ => .ok []
    parseTemplate := fun _ => .ok []
    yamlValidate := fun _ => some ⟨str "yaml error"⟩
    writeFile := fun _ _ => none }

/-- Sample parsed template referencing the test-infra image field. -/
def demoTemplate : Template := [.lit (str "image: "), .var (str "TestInfraImage")]

/-- Sample variable record for the sample pinned entry. -/
def demoVars : templateVars := initJobVars sampleSettings sampleGroup samplePinnedJob

/-- TrimSuffix removes exactly the appended suffix. -/
theorem trimSuffix_concat (t y : Str) : trimSuffix (t ++ y) y = t := by
  unfold trimSuffix
  rw [if_pos (List.isSuffixOf_iff_suffix.mpr ⟨t, rfl⟩)]
  have hlen : (t ++ y).length - y.length = t.length := by simp
  rw [hlen, List.take_left]

/-- C1: For every job entry processed by processTestInfra, if the
Kubernetes or kubeadm version of the entry equals the latest sentinel
then the resolved variables have JobInterval 2h, failures-to-alert 8 and
stale-results-hours 16, and otherwise JobInterval 12h, failures-to-alert
4 and stale-results-hours 48; in each case the rendered alert annotation
block embeds exactly those two numbers. -/
theorem alert_policy_two_tier (s : Settings) (cfg : jobGroup) (j : jobEntry) (fileName : Str) :
    (j.KubernetesVersion = latestVersion ∨ j.KubeadmVersion = latestVersion →
      (resolveJobVars s cfg j fileName).JobInterval = str "2h" ∧
      jobAlertPolicy j = (str "2h", 8, 16) ∧
      (resolveJobVars s cfg j fileName).AlertAnnotations =
        str "    testgrid-num-failures-to-alert: \"8\"\n    testgrid-alert-stale-results-hours: \"16\"") ∧
    (¬ (j.KubernetesVersion = latestVersion ∨ j.KubeadmVersion = latestVersion) →
      (resolveJobVars s cfg j fileName).JobInterval = str "12h" ∧
      jobAlertPolicy j = (str "12h", 4, 48) ∧
      (resolveJobVars s cfg j fileName).AlertAnnotations =
        str "    testgrid-num-failures-to-alert: \"4\"\n    testgrid-alert-stale-results-hours: \"48\"") := by
  constructor <;> intro h
  · have hp : jobAlertPolicy j = (str "2h", 8, 16) := by
      unfold jobAlertPolicy
      rw [if_pos h]
    refine ⟨?_, hp, ?_⟩
    · simp only [resolveJobVars, hp]
    · simp only [resolveJobVars, hp]
      decide
  · have hp : jobAlertPolicy j = (str "12h", 4, 48) := by
      unfold jobAlertPolicy
      rw [if_neg h]
    refine ⟨?_, hp, ?_⟩
    · simp only [resolveJobVars, hp]
    · simp only [resolveJobVars, hp]
      decide

/-- C1 witness: the latest-tracking sample entry resolves to the 2h
interval and the 8 and 16 thresholds. -/
theorem alert_policy_two_tier_witness :
    (sampleLatestJob.KubernetesVersion = latestVersion ∨
      sampleLatestJob.KubeadmVersion = latestVersion) ∧
    ((resolveJobVars sampleSettings sampleGroup sampleLatestJob (str "wf.yaml")).JobInterval =
        str "2h" ∧
      jobAlertPolicy sampleLatestJob = (str "2h", 8, 16) ∧
      (resolveJobVars sampleSettings sampleGroup sampleLatestJob (str "wf.yaml")).AlertAnnotations =
        str "    testgrid-num-failures-to-alert: \"8\"\n    testgrid-alert-stale-results-hours: \"16\"") :=
  ⟨Or.inl rfl,
   (alert_policy_two_tier sampleSettings sampleGroup sampleLatestJob (str "wf.yaml")).1 (Or.inl rfl)⟩

/-- C3 counterexample: the rendered file name a.yaml.yaml ends in .yaml,
yet the quoted inner value of WorkflowFile is a.yaml, which still ends in
.yaml, so the claim that the inner value never ends in .yaml is false. -/
theorem workflowFile_double_yaml_counterexample :
    (str ".yaml").isSuffixOf (str "a.yaml.yaml") = true ∧
    workflowFileOf (str "a.yaml.yaml") = str "\"a.yaml\"" ∧
    (str ".yaml").isSuffixOf (str "a.yaml") = true := by decide

/-- C3 amended: for every rendered file name ending in .yaml but not in
.yaml.yaml, WorkflowFile is the inner value wrapped in one pair of double
quotes and the inner value does not end in .yaml. -/
theorem workflowFile_quoted_and_stripped (fileName : Str)
    (h1 : (str ".yaml").isSuffixOf fileName = true)
    (h2 : (str ".yaml.yaml").isSuffixOf fileName = false) :
    ∃ inner, workflowFileOf fileName = str "\"" ++ inner ++ str "\"" ∧
      (str ".yaml").isSuffixOf inner = false := by
  obtain ⟨t, ht⟩ := List.isSuffixOf_iff_suffix.mp h1
  refine ⟨t, ?_, ?_⟩
  · unfold workflowFileOf
    rw [← ht, trimSuffix_concat]
  · cases hb : (str ".yaml").isSuffixOf t with
    | false => rfl
    | true =>
      exfalso
      obtain ⟨u, hu⟩ := List.isSuffixOf_iff_suffix.mp hb
      have hy : str ".yaml" ++ str ".yaml" = str ".yaml.yaml" := by decide
      have hall : (str ".yaml.yaml").isSuffixOf fileName = true := by
        apply List.isSuffixOf_iff_suffix.mpr
        exact ⟨u, by rw [← ht, ← hu, List.append_assoc, hy]⟩
      rw [hall] at h2
      simp at h2

/-- C3 witness: the rendered file name wf.yaml satisfies both hypotheses
and yields a quoted inner value that does not end in .yaml. -/
theorem workflowFile_quoted_and_stripped_witness :
    (str ".yaml").isSuffixOf (str "wf.yaml") = true ∧
    (str ".yaml.yaml").isSuffixOf (str "wf.yaml") = false ∧
    ∃ inner, workflowFileOf (str "wf.yaml") = str "\"" ++ inner ++ str "\"" ∧
      (str ".yaml").isSuffixOf inner = false :=
  ⟨by decide, by decide,
   workflowFile_quoted_and_stripped (str "wf.yaml") (by decide) (by decide)⟩

/-- C4 counterexample: the alert annotation block of a resolved entry is
indented by 4 spaces, not 6: the block of the latest-tracking sample
entry starts with exactly four spaces and a six-space run is not a
prefix of it. -/
theorem alert_annotations_indent_counterexample :
    (resolveJobVars sampleSettings sampleGroup sampleLatestJob (str "wf.yaml")).AlertAnnotations =
      str "    testgrid-num-failures-to-alert: \"8\"\n    testgrid-alert-stale-results-hours: \"16\"" ∧
    (str "      ").isPrefixOf
      (resolveJobVars sampleSettings sampleGroup sampleLatestJob (str "wf.yaml")).AlertAnnotations
      = false ∧
    (str "    ").isPrefixOf
      (resolveJobVars sampleSettings sampleGroup sampleLatestJob (str "wf.yaml")).AlertAnnotations
      = true := by decide

/-- C4 amended: for every job entry, AlertAnnotations is the two-line
text block whose lines carry the keys testgrid-num-failures-to-alert and
testgrid-alert-stale-results-hours with the two threshold numbers of that
entry (the ones its own alert policy selects), indented by 4 spaces; and
the block is one of exactly the two literal blocks 8 and 16 or 4 and 48. -/
theorem alert_annotations_two_blocks (s : Settings) (cfg : jobGroup) (j : jobEntry)
    (fileName : Str) :
    (resolveJobVars s cfg j fileName).AlertAnnotations =
      str "    testgrid-num-failures-to-alert: \"" ++ natToStr (jobAlertPolicy j).2.1
        ++ str "\"\n    testgrid-alert-stale-results-hours: \"" ++ natToStr (jobAlertPolicy j).2.2
        ++ str "\"" ∧
    ((resolveJobVars s cfg j fileName).AlertAnnotations =
        str "    testgrid-num-failures-to-alert: \"8\"\n    testgrid-alert-stale-results-hours: \"16\"" ∨
      (resolveJobVars s cfg j fileName).AlertAnnotations =
        str "    testgrid-num-failures-to-alert: \"4\"\n    testgrid-alert-stale-results-hours: \"48\"") := by
  refine ⟨rfl, ?_⟩
  by_cases h : j.KubernetesVersion = latestVersion ∨ j.KubeadmVersion = latestVersion
  · left
    have hp : jobAlertPolicy j = (str "2h", 8, 16) := by
      unfold jobAlertPolicy
      rw [if_pos h]
    simp only [resolveJobVars, hp]
    decide
  · right
    have hp : jobAlertPolicy j = (str "12h", 4, 48) := by
      unfold jobAlertPolicy
      rw [if_neg h]
    simp only [resolveJobVars, hp]
    decide

/-- C5: For every job entry whose skip decision is true, removing that
entry from the job list leaves the result of the per-entry loop unchanged
(same accumulated output, same error behavior, same execution count): no
rendered block for the entry appears and no template execution is
performed for it, and the decision does not affect any other entry. -/
theorem skipped_entry_no_render_no_exec (tJ tF : Template) (s : Settings) (cfg : jobGroup)
    (o m : Version) (j : jobEntry) (h : skipDecision o m j = true)
    (pre post : List jobEntry) (acc : Str) (n : Nat) :
    processJobs tJ tF s cfg o m (pre ++ j :: post) acc n =
      processJobs tJ tF s cfg o m (pre ++ post) acc n := by
  induction pre generalizing acc n with
  | nil => simp [processJobs, h]
  | cons p ps ih =>
    simp only [List.cons_append, processJobs]
    cases hp : skipDecision o m p with
    | true =>
      simp only [if_true]
      exact ih acc n
    | false =>
      simp only [Bool.false_eq_true, if_false]
      cases hf : executeTemplate tF (initJobVars s cfg p) with
      | error e => rfl
      | ok fileName =>
        dsimp only
        cases hr : executeTemplate tJ (resolveJobVars s cfg p fileName) with
        | error e => rfl
        | ok rendered =>
          dsimp only
          exact ih (acc ++ str "\n" ++ rendered) (n + 2)

/-- C5 witness: with the sample old entry skipped under oldest version
1.20 and minimum version 1.25, processing a list holding only that entry
equals processing the empty list. -/
theorem skipped_entry_no_render_no_exec_witness :
    skipDecision [1, 20] [1, 25] sampleOldJob = true ∧
    processJobs [] [] sampleSettings sampleGroup [1, 20] [1, 25] [sampleOldJob] [] 0 =
      processJobs [] [] sampleSettings sampleGroup [1, 20] [1, 25] [] [] 0 :=
  ⟨by decide,
   skipped_entry_no_render_no_exec [] [] sampleSettings sampleGroup [1, 20] [1, 25]
     sampleOldJob (by decide) [] [] [] 0⟩

/-- C10: The skip decision depends only on the KubernetesVersion field of
the entry: two entries with the same Kubernetes version get the same
decision whatever their kubeadm, kubelet, init and upgrade versions are. -/
theorem skip_uses_only_kubernetes_version (o m : Version) (j1 j2 : jobEntry)
    (h : j1.KubernetesVersion = j2.KubernetesVersion) :
    skipDecision o m j1 = skipDecision o m j2 := by
  unfold skipDecision
  rw [h]

/-- C10 witness: the sample pinned entry and the variant of the old entry
sharing its Kubernetes version but no other version field get the same
skip decision. -/
theorem skip_uses_only_kubernetes_version_witness :
    (samplePinnedJob.KubernetesVersion =
      ({ sampleOldJob with KubernetesVersion := str "1.28" } : jobEntry).KubernetesVersion) ∧
    skipDecision [1, 20] [1, 25] samplePinnedJob =
      skipDecision [1, 20] [1, 25] { sampleOldJob with KubernetesVersion := str "1.28" } :=
  ⟨by decide,
   skip_uses_only_kubernetes_version [1, 20] [1, 25] samplePinnedJob
     { sampleOldJob with KubernetesVersion := str "1.28" } (by decide)⟩

/-- C6: For every job group whose template reference is the empty string,
processTestInfra returns success and performs no effect at all: no file
read, no template execution, no file written. -/
theorem empty_template_noop (env : Env) (s : Settings) (cfg : jobGroup) (o m : Version)
    (h : cfg.TestInfraJobSpec.Template = []) :
    processTestInfra env s cfg o m =
      { result := .ok (), writes := [], reads := [], execCount := 0 } := by
  unfold processTestInfra
  rw [h]
  rfl

/-- C6 witness: the sample group with the empty template reference is a
no-op in the environment whose read always fails, showing nothing was
read. -/
theorem empty_template_noop_witness :
    sampleEmptyGroup.TestInfraJobSpec.Template = [] ∧
    processTestInfra errEnv sampleSettings sampleEmptyGroup [1, 20] [1, 25] =
      { result := .ok (), writes := [], reads := [], execCount := 0 } :=
  ⟨rfl, empty_template_noop errEnv sampleSettings sampleEmptyGroup [1, 20] [1, 25] rfl⟩

/-- C8: Template rendering is deterministic: two executions of the same
template against the same variable record that both succeed return the
same text. In this embedding executeTemplate is a pure function of its
inputs, mirroring that Execute of text/template with the five pure helper
functions has no other input. -/
theorem rendering_deterministic (t : Template) (v : templateVars) (s1 s2 : Str)
    (h1 : executeTemplate t v = .ok s1) (h2 : executeTemplate t v = .ok s2) :
    s1 = s2 := by
  rw [h1] at h2
  injection h2

/-- C8 witness: rendering the sample template against the sample
variable record twice gives the same concrete text. -/
theorem rendering_deterministic_witness :
    executeTemplate demoTemplate demoVars = .ok (str "image: img:v1") ∧
    str "image: img:v1" = str "image: img:v1" :=
  ⟨by decide,
   rendering_deterministic demoTemplate demoVars (str "image: img:v1") (str "image: img:v1")
     (by decide) (by decide)⟩

/-- C2: On every input where some step of processTestInfra fails, the
returned result is that error and no output file is written, and the
output file is written only for content that passed YAML validation of
the complete accumulated text: an error result means no write, every
written content was validated, and each failing step (template file
read, job template parse, file-name template parse, template execution
in the loop, YAML validation, file write) makes the function return that
error (for validation, the error wrapping the accumulated text). -/
theorem no_write_on_error (env : Env) (s : Settings) (cfg : jobGroup) (o m : Version) :
    (∀ e, (processTestInfra env s cfg o m).result = .error e →
      (processTestInfra env s cfg o m).writes = []) ∧
    (∀ p c, (p, c) ∈ (processTestInfra env s cfg o m).writes →
      env.yamlValidate c = none) ∧
    (∀ e, cfg.TestInfraJobSpec.Template.length ≠ 0 →
      env.readFile (tPathOf s cfg) = .error e →
      (processTestInfra env s cfg o m).result = .error e) ∧
    (∀ tB e, cfg.TestInfraJobSpec.Template.length ≠ 0 →
      env.readFile (tPathOf s cfg) = .ok tB →
      env.parseTemplate tB = .error e →
      (processTestInfra env s cfg o m).result = .error e) ∧
    (∀ tB tJ e, cfg.TestInfraJobSpec.Template.length ≠ 0 →
      env.readFile (tPathOf s cfg) = .ok tB →
      env.parseTemplate tB = .ok tJ →
      env.parseTemplate cfg.KinderWorkflowSpec.TargetFile = .error e →
      (processTestInfra env s cfg o m).result = .error e) ∧
    (∀ tB tJ tF e n, cfg.TestInfraJobSpec.Template.length ≠ 0 →
      env.readFile (tPathOf s cfg) = .ok tB →
      env.parseTemplate tB = .ok tJ →
      env.parseTemplate cfg.KinderWorkflowSpec.TargetFile = .ok tF →
      processJobs tJ tF s cfg o m cfg.Jobs baseContent 0 = (.error e, n) →
      (processTestInfra env s cfg o m).result = .error e) ∧
    (∀ tB tJ tF content n ve, cfg.TestInfraJobSpec.Template.length ≠ 0 →
      env.readFile (tPathOf s cfg) = .ok tB →
      env.parseTemplate tB = .ok tJ →
      env.parseTemplate cfg.KinderWorkflowSpec.TargetFile = .ok tF →
      processJobs tJ tF s cfg o m cfg.Jobs baseContent 0 = (.ok content, n) →
      env.yamlValidate content = some ve →
      (processTestInfra env s cfg o m).result =
        .error ⟨str "\n" ++ content ++ str "\n: " ++ ve.msg⟩) ∧
    (∀ tB tJ tF content n e, cfg.TestInfraJobSpec.Template.length ≠ 0 →
      env.readFile (tPathOf s cfg) = .ok tB →
      env.parseTemplate tB = .ok tJ →
      env.parseTemplate cfg.KinderWorkflowSpec.TargetFile = .ok tF →
      processJobs tJ tF s cfg o m cfg.Jobs baseContent 0 = (.ok content, n) →
      env.yamlValidate content = none →
      env.writeFile (outPathOf s cfg) content = some e →
      (processTestInfra env s cfg o m).result = .error e) := by
  refine ⟨?_, ?_, ?_, ?_, ?_, ?_, ?_, ?_⟩
  · intro e
    unfold processTestInfra
    repeat' split
    all_goals intro h
    all_goals simp_all
  · intro p c
    unfold processTestInfra
    repeat' split
    all_goals intro h
    all_goals simp_all
  · intro e h0 hr
    unfold processTestInfra
    rw [if_neg h0]
    simp only [hr]
  · intro tB e h0 hr hp
    unfold processTestInfra
    rw [if_neg h0]
    simp only [hr, hp]
  · intro tB tJ e h0 hr hp1 hp2
    unfold processTestInfra
    rw [if_neg h0]
    simp only [hr, hp1, hp2]
  · intro tB tJ tF e n h0 hr hp1 hp2 hj
    unfold processTestInfra
    rw [if_neg h0]
    simp only [hr, hp1, hp2, hj]
  · intro tB tJ tF content n ve h0 hr hp1 hp2 hj hv
    unfold processTestInfra
    rw [if_neg h0]
    simp only [hr, hp1, hp2, hj, hv]
  · intro tB tJ tF content n e h0 hr hp1 hp2 hj hv hw
    unfold processTestInfra
    rw [if_neg h0]
    simp only [hr, hp1, hp2, hj, hv, hw]

/-- C2 witness: in the environment whose template file read fails the
pipeline writes nothing and returns exactly the read error, and in the
all-success environment the single written file carries validated
content. -/
theorem no_write_on_error_witness :
    (processTestInfra errEnv sampleSettings sampleGroup [1, 20] [1, 25]).writes = [] ∧
    goodEnv.yamlValidate baseContent = none ∧
    (processTestInfra errEnv sampleSettings sampleGroup [1, 20] [1, 25]).result =
      .error ⟨str "boom"⟩ :=
  ⟨(no_write_on_error errEnv sampleSettings sampleGroup [1, 20] [1, 25]).1
     ⟨str "boom"⟩ (by decide),
   (no_write_on_error goodEnv sampleSettings sampleGroup [1, 20] [1, 25]).2.1
     (outPathOf sampleSettings sampleGroup) baseContent (by decide),
   (no_write_on_error errEnv sampleSettings sampleGroup [1, 20] [1, 25]).2.2.1
     ⟨str "boom"⟩ (by decide) rfl⟩

/-- C7: Whenever the accumulated text fails YAML validation, the result
of processTestInfra is an error whose message wraps around the full
accumulated text verbatim (the text occurs as a contiguous substring),
and nothing is written. -/
theorem validation_error_includes_text (env : Env) (s : Settings) (cfg : jobGroup)
    (o m : Version) (tB : Str) (tJ tF : Template) (content : Str) (n : Nat) (e : Error)
    (h0 : cfg.TestInfraJobSpec.Template.length ≠ 0)
    (hr : env.readFile (tPathOf s cfg) = .ok tB)
    (hp1 : env.parseTemplate tB = .ok tJ)
    (hp2 : env.parseTemplate cfg.KinderWorkflowSpec.TargetFile = .ok tF)
    (hj : processJobs tJ tF s cfg o m cfg.Jobs baseContent 0 = (.ok content, n))
    (hv : env.yamlValidate content = some e) :
    (processTestInfra env s cfg o m).result =
      .error ⟨str "\n" ++ content ++ str "\n: " ++ e.msg⟩ ∧
    (∃ pre post, str "\n" ++ content ++ str "\n: " ++ e.msg = pre ++ content ++ post) ∧
    (processTestInfra env s cfg o m).writes = [] := by
  unfold processTestInfra
  rw [if_neg h0]
  simp only [hr, hp1, hp2, hj, hv]
  exact ⟨trivial, ⟨str "\n", str "\n: " ++ e.msg, by simp⟩, trivial⟩

/-- C7 witness: in the environment whose YAML validation always fails,
the sample group yields exactly the wrapped validation error carrying the
accumulated header text, and nothing is written. -/
theorem validation_error_includes_text_witness :
    sampleGroup.TestInfraJobSpec.Template.length ≠ 0 ∧
    ((processTestInfra valEnv sampleSettings sampleGroup [1, 20] [1, 25]).result =
      .error ⟨str "\n" ++ baseContent ++ str "\n: " ++ str "yaml error"⟩ ∧
    (∃ pre post, str "\n" ++ baseContent ++ str "\n: " ++ str "yaml error" =
      pre ++ baseContent ++ post) ∧
    (processTestInfra valEnv sampleSettings sampleGroup [1, 20] [1, 25]).writes = []) :=
  ⟨by decide,
   validation_error_includes_text valEnv sampleSettings sampleGroup [1, 20] [1, 25]
     [] [] [] baseContent 0 ⟨str "yaml error"⟩ (by decide) rfl rfl rfl rfl rfl⟩

/-- Processing a job list whose entries are all skipped leaves the
accumulator and the execution count untouched. -/
theorem processJobs_all_skipped (tJ tF : Template) (s : Settings) (cfg : jobGroup)
    (o m : Version) (jobs : List jobEntry) (acc : Str) (n : Nat)
    (h : ∀ j ∈ jobs, skipDecision o m j = true) :
    processJobs tJ tF s cfg o m jobs acc n = (.ok acc, n) := by
  induction jobs generalizing acc n with
  | nil => rfl
  | cons j rest ih =>
    have hj : skipDecision o m j = true := h j (List.mem_cons_self j rest)
    simp only [processJobs, hj, if_true]
    exact ih acc n (fun x hx => h x (List.mem_cons_of_mem j hx))

/-- C9: For every job group with a non-empty template reference whose
entries are all skipped (in particular when the entry list is empty),
processTestInfra still writes the output file at the computed path, with
content exactly the autogenerated header followed by the periodics root
key and no job blocks, performing no template execution. -/
theorem all_skipped_writes_header_only (env : Env) (s : Settings) (cfg : jobGroup)
    (o m : Version) (tB : Str) (tJ tF : Template)
    (h0 : cfg.TestInfraJobSpec.Template.length ≠ 0)
    (hr : env.readFile (tPathOf s cfg) = .ok tB)
    (hp1 : env.parseTemplate tB = .ok tJ)
    (hp2 : env.parseTemplate cfg.KinderWorkflowSpec.TargetFile = .ok tF)
    (hskip : ∀ j ∈ cfg.Jobs, skipDecision o m j = true)
    (hv : env.yamlValidate baseContent = none)
    (hw : env.writeFile (outPathOf s cfg) baseContent = none) :
    processTestInfra env s cfg o m =
      { result := .ok (), writes := [(outPathOf s cfg, baseContent)],
        reads := [tPathOf s cfg], execCount := 0 } := by
  unfold processTestInfra
  rw [if_neg h0]
  simp only [hr, hp1, hp2,
    processJobs_all_skipped tJ tF s cfg o m cfg.Jobs baseContent 0 hskip, hv, hw]

/-- C9 witness: the sample group (non-empty template reference, no
entries) in the all-success environment writes exactly the header and
periodics root key to the computed output path. -/
theorem all_skipped_writes_header_only_witness :
    sampleGroup.TestInfraJobSpec.Template.length ≠ 0 ∧
    processTestInfra goodEnv sampleSettings sampleGroup [1, 20] [1, 25] =
      { result := .ok (), writes := [(outPathOf sampleSettings sampleGroup, baseContent)],
        reads := [tPathOf sampleSettings sampleGroup], execCount := 0 } :=
  ⟨by decide,
   all_skipped_writes_header_only goodEnv sampleSettings sampleGroup [1, 20] [1, 25]
     [] [] [] (by decide) rfl rfl rfl (by simp [sampleGroup]) rfl rfl⟩
